import Mathlib

/-!
Verification of the vendor lifecycle-cost comparison engine
(`vendor_compare.py` and its HTTP surface `vendors.py`).

Numbers are modelled as exact rationals (`ℚ`); Python's `round(x, 2)` is
modelled as decimal rounding half-to-even, and Python's truthiness-based
`a or b` on optional numbers is modelled explicitly (`None` and `0` are
falsy).  The cost book, which `load_costs()` reads from
`services/cost_book.yaml`, is passed to the functions explicitly.
-/

namespace Augustus

/-- Rounding of a rational to the nearest integer, ties to even
(the behaviour of Python's built-in `round`). -/
def rhe (x : ℚ) : ℤ :=
  if x - ⌊x⌋ < 1 / 2 then ⌊x⌋
  else if 1 / 2 < x - ⌊x⌋ then ⌊x⌋ + 1
  else if ⌊x⌋ % 2 = 0 then ⌊x⌋ else ⌊x⌋ + 1

/-- Python's `round(x, 2)`: round to two decimal places. -/
def round2 (x : ℚ) : ℚ := (rhe (100 * x) : ℚ) / 100

/-- The `npv` function of `vendor_compare.py`:
`sum(c / ((1 + r) ** t) for t, c in enumerate(series, start=1))`. -/
def npv (series : List ℚ) (r : ℚ) : ℚ :=
  (series.enum.map (fun tc => tc.2 / (1 + r) ^ (tc.1 + 1))).sum

/-- The `Cluster` dataclass of `vendor_compare.py`.  The three financial
fields are optional and default to `None`. -/
structure Cluster where
  num_lots : ℤ
  est_main_lf : ℚ
  est_laterals_lf : ℚ
  analysis_years : Option ℤ := none
  discount_rate : Option ℚ := none
  energy_rate_per_kwh : Option ℚ := none

/-- The `vacuum` section of the cost book (all keys the code reads). -/
structure VacuumCosts where
  main_per_lf_shallow : ℚ
  lateral_per_lf : ℚ
  station_per_400_lots_ls : ℚ
  valve_pit_each : ℚ
  annual_om_per_conn : ℚ
  energy_kwh_per_conn_day : ℚ

/-- The `pressure` section of the cost book (all keys the code reads). -/
structure PressureCosts where
  main_per_lf_shallow : ℚ
  lateral_per_lf : ℚ
  grinder_pump_package_each : ℚ
  booster_ls : ℚ
  annual_om_per_conn : ℚ
  energy_kwh_per_conn_day : ℚ
  pump_replace_years : ℚ
  pump_replace_cost_each : ℚ

/-- The `finance` section of the cost book; every key may be absent. -/
structure Finance where
  analysis_years : Option ℤ := none
  discount_rate : Option ℚ := none
  energy_rate_per_kwh : Option ℚ := none

/-- The cost book.  `finance := none` models an absent (or empty, or null)
`finance` mapping, which is falsy in Python. -/
structure CostBook where
  vacuum : VacuumCosts
  pressure : PressureCosts
  finance : Option Finance := none

/-- Python `a or b` for an optional integer: `None` and `0` are falsy. -/
def orElseZ (a : Option ℤ) (b : ℤ) : ℤ :=
  match a with
  | none => b
  | some x => if x = 0 then b else x

/-- Python `a or b` for an optional rational: `None` and `0` are falsy. -/
def orElseQ (a : Option ℚ) (b : ℚ) : ℚ :=
  match a with
  | none => b
  | some x => if x = 0 then b else x

/-- The helper `_f(fin, k, d)` of `vendor_compare.py`:
`fin.get(k, d) if fin else d` (integer-valued key). -/
def finGetZ (fin : Option Finance) (k : Finance → Option ℤ) (d : ℤ) : ℤ :=
  match fin with
  | none => d
  | some s => (k s).getD d

/-- The helper `_f(fin, k, d)` of `vendor_compare.py`:
`fin.get(k, d) if fin else d` (rational-valued key). -/
def finGetQ (fin : Option Finance) (k : Finance → Option ℚ) (d : ℚ) : ℚ :=
  match fin with
  | none => d
  | some s => (k s).getD d

/-- `ny = c.analysis_years or _f(fin, "analysis_years", 30)`. -/
def resolveYears (c : Cluster) (costs : CostBook) : ℤ :=
  orElseZ c.analysis_years (finGetZ costs.finance Finance.analysis_years 30)

/-- `dr = c.discount_rate or _f(fin, "discount_rate", 0.06)`. -/
def resolveRate (c : Cluster) (costs : CostBook) : ℚ :=
  orElseQ c.discount_rate (finGetQ costs.finance Finance.discount_rate (6 / 100))

/-- `ek = c.energy_rate_per_kwh or _f(fin, "energy_rate_per_kwh", 0.14)`. -/
def resolveEnergy (c : Cluster) (costs : CostBook) : ℚ :=
  orElseQ c.energy_rate_per_kwh (finGetQ costs.finance Finance.energy_rate_per_kwh (14 / 100))

/-- Python `int()` applied to a number: truncation toward zero. -/
def pyInt (q : ℚ) : ℤ := if 0 ≤ q then ⌊q⌋ else ⌈q⌉

/-- The capital-cost expression of `estimate_vacuum`. -/
def vacuumCapex (c : Cluster) (v : VacuumCosts) : ℚ :=
  c.est_main_lf * v.main_per_lf_shallow
    + c.est_laterals_lf * v.lateral_per_lf
    + ((⌈((max 1 c.num_lots : ℤ) : ℚ) / 400⌉ : ℤ) : ℚ) * v.station_per_400_lots_ls
    + ((⌈(c.num_lots : ℚ) / 2⌉ : ℤ) : ℚ) * v.valve_pit_each

/-- The year-1 operating cost `y1` of `estimate_vacuum`. -/
def vacuumY1 (c : Cluster) (v : VacuumCosts) (ek : ℚ) : ℚ :=
  (c.num_lots : ℚ) * v.annual_om_per_conn
    + (c.num_lots : ℚ) * v.energy_kwh_per_conn_day * 365 * ek

/-- The (unrounded) operating NPV of `estimate_vacuum`:
`npv([y1] * ny, dr)`. -/
def vacuumNpvOmRaw (c : Cluster) (costs : CostBook) : ℚ :=
  npv (List.replicate (resolveYears c costs).toNat
        (vacuumY1 c costs.vacuum (resolveEnergy c costs)))
    (resolveRate c costs)

/-- The result record of either estimator, with every monetary field
already rounded to two decimals (as in the source dictionaries). -/
structure CostEstimate where
  system : String
  capex : ℚ
  annual_om_year1 : ℚ
  npv_om : ℚ
  npv_total : ℚ

/-- `estimate_vacuum(c, costs)` of `vendor_compare.py`. -/
def estimate_vacuum (c : Cluster) (costs : CostBook) : CostEstimate :=
  { system := "Vacuum"
    capex := round2 (vacuumCapex c costs.vacuum)
    annual_om_year1 := round2 (vacuumY1 c costs.vacuum (resolveEnergy c costs))
    npv_om := round2 (vacuumNpvOmRaw c costs)
    npv_total := round2 (vacuumCapex c costs.vacuum + vacuumNpvOmRaw c costs) }

/-- The capital-cost expression of `estimate_pressure` (booster added
only when `est_main_lf > 8000`). -/
def pressureCapex (c : Cluster) (p : PressureCosts) : ℚ :=
  c.est_main_lf * p.main_per_lf_shallow
    + c.est_laterals_lf * p.lateral_per_lf
    + (c.num_lots : ℚ) * p.grinder_pump_package_each
    + (if 8000 < c.est_main_lf then p.booster_ls else 0)

/-- The recurring annual operating cost of `estimate_pressure`. -/
def pressureAnnual (c : Cluster) (p : PressureCosts) (ek : ℚ) : ℚ :=
  (c.num_lots : ℚ) * p.annual_om_per_conn
    + (c.num_lots : ℚ) * p.energy_kwh_per_conn_day * 365 * ek

/-- `rep_years = max(1, int(p["pump_replace_years"]))`. -/
def repYears (p : PressureCosts) : ℤ := max 1 (pyInt p.pump_replace_years)

/-- The pump-replacement lump `rep_cost = num_lots * pump_replace_cost_each`. -/
def repCost (c : Cluster) (p : PressureCosts) : ℚ :=
  (c.num_lots : ℚ) * p.pump_replace_cost_each

/-- The per-year operating series of `estimate_pressure`:
`[(annual + (rep_cost if y % rep_years == 0 else 0)) for y in range(1, ny + 1)]`. -/
def pressureSeries (c : Cluster) (costs : CostBook) : List ℚ :=
  (List.range' 1 (resolveYears c costs).toNat).map
    (fun (y : ℕ) =>
      pressureAnnual c costs.pressure (resolveEnergy c costs)
        + if ((y : ℕ) : ℤ) % repYears costs.pressure = 0 then repCost c costs.pressure else 0)

/-- The (unrounded) operating NPV of `estimate_pressure`. -/
def pressureNpvOmRaw (c : Cluster) (costs : CostBook) : ℚ :=
  npv (pressureSeries c costs) (resolveRate c costs)

/-- `estimate_pressure(c, costs)` of `vendor_compare.py`. -/
def estimate_pressure (c : Cluster) (costs : CostBook) : CostEstimate :=
  { system := "Pressure"
    capex := round2 (pressureCapex c costs.pressure)
    annual_om_year1 := round2 (pressureAnnual c costs.pressure (resolveEnergy c costs))
    npv_om := round2 (pressureNpvOmRaw c costs)
    npv_total := round2 (pressureCapex c costs.pressure + pressureNpvOmRaw c costs) }

/-- The comparison result of `compare`. -/
structure ComparisonResult where
  vacuum : CostEstimate
  pressure : CostEstimate
  preferred : String
  npv_delta : ℚ

/-- `compare(cluster)` of `vendor_compare.py`.  The cost book that the
source obtains from `load_costs()` is passed explicitly. -/
def compare (costs : CostBook) (c : Cluster) : ComparisonResult :=
  { vacuum := estimate_vacuum c costs
    pressure := estimate_pressure c costs
    preferred :=
      if (estimate_vacuum c costs).npv_total < (estimate_pressure c costs).npv_total
      then "Vacuum" else "Pressure"
    npv_delta :=
      round2 |(estimate_vacuum c costs).npv_total - (estimate_pressure c costs).npv_total| }

/-! ### Helper lemmas about rounding -/

theorem floor_le_rhe (x : ℚ) : ⌊x⌋ ≤ rhe x := by
  unfold rhe
  split_ifs <;> omega

theorem rhe_le_floor_add_one (x : ℚ) : rhe x ≤ ⌊x⌋ + 1 := by
  unfold rhe
  split_ifs <;> omega

theorem abs_rhe_sub (x : ℚ) : |(rhe x : ℚ) - x| ≤ 1 / 2 := by
  have h0 : (⌊x⌋ : ℚ) ≤ x := Int.floor_le x
  have h1 : x < ⌊x⌋ + 1 := Int.lt_floor_add_one x
  unfold rhe
  split_ifs with ha hb hc
  · exact abs_le.mpr ⟨by linarith, by linarith⟩
  · push_cast
    exact abs_le.mpr ⟨by linarith, by linarith⟩
  · exact abs_le.mpr ⟨by linarith, by linarith⟩
  · push_cast
    exact abs_le.mpr ⟨by linarith, by linarith⟩

theorem rhe_mono {x y : ℚ} (h : x ≤ y) : rhe x ≤ rhe y := by
  rcases lt_or_ge ⌊x⌋ ⌊y⌋ with hf | hf
  · have h1 := rhe_le_floor_add_one x
    have h2 := floor_le_rhe y
    omega
  · have hfe : ⌊x⌋ = ⌊y⌋ := le_antisymm (Int.floor_le_floor h) hf
    unfold rhe
    rw [hfe]
    split_ifs <;> first
    | omega
    | linarith

theorem abs_round2_sub (x : ℚ) : |round2 x - x| ≤ 1 / 200 := by
  have h := abs_rhe_sub (100 * x)
  have he : round2 x - x = ((rhe (100 * x) : ℚ) - 100 * x) / 100 := by
    unfold round2
    ring
  rw [he, abs_div]
  have h100 : |(100 : ℚ)| = 100 := by norm_num
  rw [h100]
  linarith

theorem round2_mono {x y : ℚ} (h : x ≤ y) : round2 x ≤ round2 y := by
  unfold round2
  have := rhe_mono (by linarith : 100 * x ≤ 100 * y)
  have hc : ((rhe (100 * x) : ℤ) : ℚ) ≤ ((rhe (100 * y) : ℤ) : ℚ) := by exact_mod_cast this
  linarith

theorem round2_add_bound (a b : ℚ) :
    |round2 (a + b) - (round2 a + round2 b)| ≤ 1 / 100 := by
  have h1 := abs_round2_sub (a + b)
  have h2 := abs_round2_sub a
  have h3 := abs_round2_sub b
  have hk : round2 (a + b) - (round2 a + round2 b)
      = ((rhe (100 * (a + b)) - rhe (100 * a) - rhe (100 * b) : ℤ) : ℚ) / 100 := by
    unfold round2
    push_cast
    ring
  have hbig : |round2 (a + b) - (round2 a + round2 b)| ≤ 3 / 200 := by
    have he : round2 (a + b) - (round2 a + round2 b)
        = (round2 (a + b) - (a + b)) - (round2 a - a) - (round2 b - b) := by ring
    calc |round2 (a + b) - (round2 a + round2 b)|
        = |(round2 (a + b) - (a + b)) - (round2 a - a) - (round2 b - b)| := by rw [he]
      _ ≤ |(round2 (a + b) - (a + b)) - (round2 a - a)| + |round2 b - b| :=
          abs_sub _ _
      _ ≤ |round2 (a + b) - (a + b)| + |round2 a - a| + |round2 b - b| := by
          have := abs_sub (round2 (a + b) - (a + b)) (round2 a - a)
          linarith
      _ ≤ 3 / 200 := by linarith
  set k : ℤ := rhe (100 * (a + b)) - rhe (100 * a) - rhe (100 * b) with hkdef
  have hq : |((k : ℤ) : ℚ) / 100| ≤ 3 / 200 := by rw [← hk]; exact hbig
  have habs : |((k : ℤ) : ℚ)| ≤ 3 / 2 := by
    rw [abs_div] at hq
    have h100 : |(100 : ℚ)| = 100 := by norm_num
    rw [h100] at hq
    linarith
  have hik : |k| ≤ 1 := by
    have h2 : ((|k| : ℤ) : ℚ) < 2 := by
      rw [Int.cast_abs]
      exact lt_of_le_of_lt habs (by norm_num)
    have h3 : |k| < 2 := by exact_mod_cast h2
    omega
  have hfin : |((k : ℤ) : ℚ)| ≤ 1 := by
    rw [← Int.cast_abs]
    exact_mod_cast hik
  rw [hk, abs_div]
  have h100 : |(100 : ℚ)| = 100 := by norm_num
  rw [h100]
  linarith

/-! ### Resolution of the default fallback chain (claim C1) -/

theorem finGetZ_eq_bind (fin : Option Finance) (k : Finance → Option ℤ) (d : ℤ) :
    finGetZ fin k d = (fin.bind k).getD d := by
  cases fin <;> rfl

theorem finGetQ_eq_bind (fin : Option Finance) (k : Finance → Option ℚ) (d : ℚ) :
    finGetQ fin k d = (fin.bind k).getD d := by
  cases fin <;> rfl

/-- Explicit three-level override resolution, integer version: the first
value wins when it is present and nonzero (Python truthiness), else the
second when present, else the default.  Written to make all three levels
of the fallback chain visible in one place. -/
def threeLevelZ (a : Option ℤ) (b : Option ℤ) (d : ℤ) : ℤ :=
  match a with
  | some x => if x = 0 then b.getD d else x
  | none => b.getD d

/-- Explicit three-level override resolution, rational version. -/
def threeLevelQ (a : Option ℚ) (b : Option ℚ) (d : ℚ) : ℚ :=
  match a with
  | some x => if x = 0 then b.getD d else x
  | none => b.getD d

/-- Resolution of the discount rate exactly as claim C1 words it: the
value on the cluster if present (regardless of truthiness), otherwise the
finance value if present, otherwise the default. -/
def presenceResolveRate (c : Cluster) (costs : CostBook) : ℚ :=
  match c.discount_rate with
  | some x => x
  | none =>
    match costs.finance with
    | some f => f.discount_rate.getD (6 / 100)
    | none => 6 / 100

/-- An all-zero vacuum section, for concrete instances. -/
def zeroVacuum : VacuumCosts := ⟨0, 0, 0, 0, 0, 0⟩

/-- An all-zero pressure section, for concrete instances. -/
def zeroPressure : PressureCosts := ⟨0, 0, 0, 0, 0, 0, 0, 0⟩

/-- A cost book with all unit costs zero and no finance section. -/
def bookC1 : CostBook := { vacuum := zeroVacuum, pressure := zeroPressure, finance := none }

/-- A cluster that carries an explicit zero discount rate. -/
def clusterC1 : Cluster :=
  { num_lots := 1, est_main_lf := 0, est_laterals_lf := 0, discount_rate := some 0 }

/-- C1, counterexample: the resolution is not the claimed presence-based
three-level fallback.  On a cluster whose `discount_rate` is present but
equal to `0`, the code falls through to the default `0.06` (Python `or`
treats `0` as falsy), while the claimed resolution returns `0`. -/
theorem c1_present_zero_counterexample :
    clusterC1.discount_rate = some 0 ∧
      resolveRate clusterC1 bookC1 ≠ presenceResolveRate clusterC1 bookC1 := by
  constructor
  · rfl
  · show resolveRate clusterC1 bookC1 ≠ presenceResolveRate clusterC1 bookC1
    have h1 : resolveRate clusterC1 bookC1 = 6 / 100 := by
      simp [resolveRate, orElseQ, finGetQ, clusterC1, bookC1]
    have h2 : presenceResolveRate clusterC1 bookC1 = 0 := rfl
    rw [h1, h2]
    norm_num

/-- C1, amended: `estimate_vacuum` and `estimate_pressure` resolve the
effective `analysis_years`, `discount_rate` and `energy_rate_per_kwh` by a
three-level fallback in which the cluster value wins only when it is
present and nonzero (Python truthiness), the `cost_book.finance` value is
used otherwise when present, and the hardcoded defaults 30, 0.06 and 0.14
apply last. -/
theorem c1_resolution_three_level (c : Cluster) (costs : CostBook) :
    resolveYears c costs
        = threeLevelZ c.analysis_years (costs.finance.bind Finance.analysis_years) 30 ∧
      resolveRate c costs
        = threeLevelQ c.discount_rate (costs.finance.bind Finance.discount_rate) (6 / 100) ∧
      resolveEnergy c costs
        = threeLevelQ c.energy_rate_per_kwh
            (costs.finance.bind Finance.energy_rate_per_kwh) (14 / 100) := by
  refine ⟨?_, ?_, ?_⟩
  · cases hy : c.analysis_years <;>
      simp [resolveYears, orElseZ, threeLevelZ, finGetZ_eq_bind, hy]
  · cases hd : c.discount_rate <;>
      simp [resolveRate, orElseQ, threeLevelQ, finGetQ_eq_bind, hd]
  · cases he : c.energy_rate_per_kwh <;>
      simp [resolveEnergy, orElseQ, threeLevelQ, finGetQ_eq_bind, he]

/-! ### Accounting identity (claim C3) -/

/-- C3: for every cluster and cost book, the returned rounded fields of
either estimate satisfy `npv_total = capex + npv_om` up to one cent of
2-decimal rounding. -/
theorem c3_npv_total_accounting (c : Cluster) (costs : CostBook) :
    |(estimate_vacuum c costs).npv_total
        - ((estimate_vacuum c costs).capex + (estimate_vacuum c costs).npv_om)| ≤ 1 / 100 ∧
      |(estimate_pressure c costs).npv_total
        - ((estimate_pressure c costs).capex + (estimate_pressure c costs).npv_om)| ≤ 1 / 100 :=
  ⟨round2_add_bound (vacuumCapex c costs.vacuum) (vacuumNpvOmRaw c costs),
    round2_add_bound (pressureCapex c costs.pressure) (pressureNpvOmRaw c costs)⟩

/-! ### Vacuum capital cost formula (claim C8) -/

/-- C8: the vacuum capital cost is
`est_main_lf * main_per_lf_shallow + est_laterals_lf * lateral_per_lf +
ceil(max(1, num_lots) / 400) * station_per_400_lots_ls +
ceil(num_lots / 2) * valve_pit_each`, the returned `capex` field is its
2-decimal rounding, and the station count is at least one even for a
single-lot (or degenerate) cluster. -/
theorem c8_vacuum_capex_formula (c : Cluster) (costs : CostBook) :
    vacuumCapex c costs.vacuum
        = c.est_main_lf * costs.vacuum.main_per_lf_shallow
          + c.est_laterals_lf * costs.vacuum.lateral_per_lf
          + ((⌈((max 1 c.num_lots : ℤ) : ℚ) / 400⌉ : ℤ) : ℚ) * costs.vacuum.station_per_400_lots_ls
          + ((⌈(c.num_lots : ℚ) / 2⌉ : ℤ) : ℚ) * costs.vacuum.valve_pit_each ∧
      (estimate_vacuum c costs).capex = round2 (vacuumCapex c costs.vacuum) ∧
      1 ≤ ⌈((max 1 c.num_lots : ℤ) : ℚ) / 400⌉ := by
  refine ⟨rfl, rfl, ?_⟩
  have hpos : (0 : ℚ) < ((max 1 c.num_lots : ℤ) : ℚ) / 400 := by
    apply div_pos _ (by norm_num)
    have h1 : (1 : ℤ) ≤ max 1 c.num_lots := le_max_left 1 c.num_lots
    have h2 : (1 : ℚ) ≤ ((max 1 c.num_lots : ℤ) : ℚ) := by exact_mod_cast h1
    linarith
  have := Int.ceil_pos.mpr hpos
  omega

/-! ### Single-year discounting (claim C6) -/

theorem npv_singleton (x r : ℚ) : npv [x] r = x / (1 + r) := by
  simp [npv, List.enum, List.enumFrom, pow_one]

/-- C6, amended: when the resolved horizon is a single year, the
unrounded vacuum operating NPV equals the unrounded year-1 cost divided by
`1 + discount_rate`; the same holds for the pressure system provided the
pump-replacement interval resolves to at least 2 (with interval 1 the
year-1 series entry also carries the replacement lump).  The returned
`npv_om` fields are the 2-decimal roundings of these unrounded values. -/
theorem c6_single_year_npv (c : Cluster) (costs : CostBook)
    (h : resolveYears c costs = 1) :
    vacuumNpvOmRaw c costs
        = vacuumY1 c costs.vacuum (resolveEnergy c costs) / (1 + resolveRate c costs) ∧
      (2 ≤ repYears costs.pressure →
        pressureNpvOmRaw c costs
          = pressureAnnual c costs.pressure (resolveEnergy c costs)
              / (1 + resolveRate c costs)) ∧
      (estimate_vacuum c costs).npv_om = round2 (vacuumNpvOmRaw c costs) ∧
      (estimate_pressure c costs).npv_om = round2 (pressureNpvOmRaw c costs) := by
  have ht : (resolveYears c costs).toNat = 1 := by rw [h]; rfl
  refine ⟨?_, ?_, rfl, rfl⟩
  · rw [vacuumNpvOmRaw, ht]
    rw [List.replicate_one, npv_singleton]
  · intro hrep
    rw [pressureNpvOmRaw, pressureSeries, ht]
    rw [List.range'_one, List.map_singleton]
    have hmod : ((1 : ℕ) : ℤ) % repYears costs.pressure = 1 := by
      apply Int.emod_eq_of_lt (by norm_num)
      omega
    rw [hmod]
    rw [if_neg (by norm_num), add_zero, npv_singleton]

/-! ### Concrete evaluation helpers for rounding -/

theorem rhe_of_lt (x : ℚ) (n : ℤ) (h1 : (n : ℚ) ≤ x) (h2 : x < (n : ℚ) + 1 / 2) :
    rhe x = n := by
  have hf : ⌊x⌋ = n := Int.floor_eq_iff.mpr ⟨h1, by linarith⟩
  unfold rhe
  rw [hf]
  rw [if_pos (by linarith)]

theorem rhe_of_gt (x : ℚ) (n : ℤ) (h1 : (n : ℚ) + 1 / 2 < x) (h2 : x < (n : ℚ) + 1) :
    rhe x = n + 1 := by
  have hf : ⌊x⌋ = n := Int.floor_eq_iff.mpr ⟨by linarith, by linarith⟩
  unfold rhe
  rw [hf]
  rw [if_neg (by linarith)]
  rw [if_pos (by linarith)]

theorem round2_eval (x : ℚ) (n : ℤ) (h : rhe (100 * x) = n) : round2 x = (n : ℚ) / 100 := by
  unfold round2
  rw [h]

/-! ### Pump replacement schedule (claim C2) -/

/-- C2: the per-year operating series of `estimate_pressure` has, at the
1-indexed year `t` of the resolved horizon, the annual operating cost plus
`num_lots * pump_replace_cost_each` exactly when `t` is divisible by the
replacement interval (the cost-book `pump_replace_years` coerced to an
integer with minimum 1); in particular with interval 5 and a 10-year
horizon the lump appears exactly in years 5 and 10. -/
theorem c2_pressure_series_schedule (c : Cluster) (costs : CostBook) (t : ℕ)
    (h1 : 1 ≤ t) (h2 : t ≤ (resolveYears c costs).toNat) :
    (pressureSeries c costs).get? (t - 1)
        = some (pressureAnnual c costs.pressure (resolveEnergy c costs)
            + if (t : ℤ) % repYears costs.pressure = 0
              then repCost c costs.pressure else 0) ∧
      (repYears costs.pressure = 5 → (resolveYears c costs).toNat = 10 →
        ((t : ℤ) % repYears costs.pressure = 0 ↔ t = 5 ∨ t = 10)) := by
  constructor
  · rw [pressureSeries, List.get?_eq_getElem?, List.getElem?_map]
    have hlt : t - 1 < (resolveYears c costs).toNat := by omega
    rw [List.getElem?_range' 1 1 hlt]
    have ht : 1 + 1 * (t - 1) = t := by omega
    rw [Option.map_some', ht]
  · intro h5 h10
    rw [h10] at h2
    rw [h5]
    omega

/-! ### Preference decision (claim C4) -/

/-- C4: `compare` prefers "Vacuum" exactly when the vacuum `npv_total` is
strictly lower than the pressure one and prefers "Pressure" in every other
case (so in particular on an exact tie), and `npv_delta` is the 2-decimal
rounding of the absolute difference of the two `npv_total` values. -/
theorem c4_compare_preference (costs : CostBook) (c : Cluster) :
    ((compare costs c).preferred = "Vacuum"
        ↔ (estimate_vacuum c costs).npv_total < (estimate_pressure c costs).npv_total) ∧
      (¬ (estimate_vacuum c costs).npv_total < (estimate_pressure c costs).npv_total →
        (compare costs c).preferred = "Pressure") ∧
      ((estimate_vacuum c costs).npv_total = (estimate_pressure c costs).npv_total →
        (compare costs c).preferred = "Pressure") ∧
      (compare costs c).npv_delta
        = round2 |(estimate_vacuum c costs).npv_total
            - (estimate_pressure c costs).npv_total| := by
  have hpref : (compare costs c).preferred
      = if (estimate_vacuum c costs).npv_total < (estimate_pressure c costs).npv_total
        then "Vacuum" else "Pressure" := rfl
  refine ⟨?_, ?_, ?_, rfl⟩
  · rw [hpref]
    by_cases hlt : (estimate_vacuum c costs).npv_total < (estimate_pressure c costs).npv_total
    · rw [if_pos hlt]
      exact iff_of_true rfl hlt
    · rw [if_neg hlt]
      exact iff_of_false (by decide) hlt
  · intro hge
    rw [hpref, if_neg hge]
  · intro heq
    rw [hpref, if_neg (by rw [heq]; exact lt_irrefl _)]

/-! ### Monotonicity of capital cost in the lot count (claim C5) -/

/-- All unit costs of the book are non-negative. -/
def NonnegBook (costs : CostBook) : Prop :=
  0 ≤ costs.vacuum.main_per_lf_shallow ∧ 0 ≤ costs.vacuum.lateral_per_lf ∧
    0 ≤ costs.vacuum.station_per_400_lots_ls ∧ 0 ≤ costs.vacuum.valve_pit_each ∧
    0 ≤ costs.vacuum.annual_om_per_conn ∧ 0 ≤ costs.vacuum.energy_kwh_per_conn_day ∧
    0 ≤ costs.pressure.main_per_lf_shallow ∧ 0 ≤ costs.pressure.lateral_per_lf ∧
    0 ≤ costs.pressure.grinder_pump_package_each ∧ 0 ≤ costs.pressure.booster_ls ∧
    0 ≤ costs.pressure.annual_om_per_conn ∧ 0 ≤ costs.pressure.energy_kwh_per_conn_day ∧
    0 ≤ costs.pressure.pump_replace_cost_each

/-- C5: with non-negative unit costs, the returned `capex` of either
system is non-decreasing in `num_lots`, all other cluster fields held
fixed. -/
theorem c5_capex_monotone (costs : CostBook) (h : NonnegBook costs) (c : Cluster)
    (n m : ℤ) (hnm : n ≤ m) :
    (estimate_vacuum { c with num_lots := n } costs).capex
        ≤ (estimate_vacuum { c with num_lots := m } costs).capex ∧
      (estimate_pressure { c with num_lots := n } costs).capex
        ≤ (estimate_pressure { c with num_lots := m } costs).capex := by
  obtain ⟨h1, h2, h3, h4, h5, h6, h7, h8, h9, h10, h11, h12, h13⟩ := h
  constructor
  · apply round2_mono
    show c.est_main_lf * costs.vacuum.main_per_lf_shallow
          + c.est_laterals_lf * costs.vacuum.lateral_per_lf
          + ((⌈((max 1 n : ℤ) : ℚ) / 400⌉ : ℤ) : ℚ) * costs.vacuum.station_per_400_lots_ls
          + ((⌈(n : ℚ) / 2⌉ : ℤ) : ℚ) * costs.vacuum.valve_pit_each
        ≤ c.est_main_lf * costs.vacuum.main_per_lf_shallow
          + c.est_laterals_lf * costs.vacuum.lateral_per_lf
          + ((⌈((max 1 m : ℤ) : ℚ) / 400⌉ : ℤ) : ℚ) * costs.vacuum.station_per_400_lots_ls
          + ((⌈(m : ℚ) / 2⌉ : ℤ) : ℚ) * costs.vacuum.valve_pit_each
    have hmax : ((max 1 n : ℤ) : ℚ) ≤ ((max 1 m : ℤ) : ℚ) :=
      Int.cast_le.mpr (max_le_max le_rfl hnm)
    have hst : ((⌈((max 1 n : ℤ) : ℚ) / 400⌉ : ℤ) : ℚ)
        ≤ ((⌈((max 1 m : ℤ) : ℚ) / 400⌉ : ℤ) : ℚ) := by
      have hd : ((max 1 n : ℤ) : ℚ) / 400 ≤ ((max 1 m : ℤ) : ℚ) / 400 := by linarith
      exact_mod_cast Int.ceil_le_ceil hd
    have hvp : ((⌈(n : ℚ) / 2⌉ : ℤ) : ℚ) ≤ ((⌈(m : ℚ) / 2⌉ : ℤ) : ℚ) := by
      have hc : (n : ℚ) ≤ (m : ℚ) := Int.cast_le.mpr hnm
      have hd : (n : ℚ) / 2 ≤ (m : ℚ) / 2 := by linarith
      exact_mod_cast Int.ceil_le_ceil hd
    have t3 := mul_le_mul_of_nonneg_right hst h3
    have t4 := mul_le_mul_of_nonneg_right hvp h4
    linarith
  · apply round2_mono
    show c.est_main_lf * costs.pressure.main_per_lf_shallow
          + c.est_laterals_lf * costs.pressure.lateral_per_lf
          + (n : ℚ) * costs.pressure.grinder_pump_package_each
          + (if 8000 < c.est_main_lf then costs.pressure.booster_ls else 0)
        ≤ c.est_main_lf * costs.pressure.main_per_lf_shallow
          + c.est_laterals_lf * costs.pressure.lateral_per_lf
          + (m : ℚ) * costs.pressure.grinder_pump_package_each
          + (if 8000 < c.est_main_lf then costs.pressure.booster_ls else 0)
    have hc : (n : ℚ) ≤ (m : ℚ) := Int.cast_le.mpr hnm
    have t := mul_le_mul_of_nonneg_right hc h9
    linarith

/-! ### Counterexample for the single-year discounting claim (claim C6) -/

/-- A cost book with a tiny vacuum O&M cost (so that the rounded NPV
differs from the claimed quotient of rounded fields) and a pressure pump
replacement interval of one year. -/
def bookC6 : CostBook :=
  { vacuum := { main_per_lf_shallow := 0, lateral_per_lf := 0, station_per_400_lots_ls := 0,
                valve_pit_each := 0, annual_om_per_conn := 1 / 100,
                energy_kwh_per_conn_day := 0 }
    pressure := { main_per_lf_shallow := 0, lateral_per_lf := 0,
                  grinder_pump_package_each := 0, booster_ls := 0,
                  annual_om_per_conn := 100, energy_kwh_per_conn_day := 0,
                  pump_replace_years := 1, pump_replace_cost_each := 6 }
    finance := none }

/-- A single-lot cluster with a one-year horizon and the standard rate. -/
def clusterC6 : Cluster :=
  { num_lots := 1, est_main_lf := 0, est_laterals_lf := 0,
    analysis_years := some 1, discount_rate := some (6 / 100),
    energy_rate_per_kwh := some (14 / 100) }

theorem resolveYears_C6 : resolveYears clusterC6 bookC6 = 1 := by
  simp [resolveYears, orElseZ, finGetZ, clusterC6, bookC6]

theorem resolveRate_C6 : resolveRate clusterC6 bookC6 = 6 / 100 := by
  simp only [resolveRate, clusterC6, orElseQ]
  rw [if_neg (by norm_num)]

theorem vacuumY1_C6 :
    vacuumY1 clusterC6 bookC6.vacuum (resolveEnergy clusterC6 bookC6) = 1 / 100 := by
  simp [vacuumY1, clusterC6, bookC6]

theorem vacuumNpvOmRaw_C6 : vacuumNpvOmRaw clusterC6 bookC6 = (1 / 100) / (1 + 6 / 100) := by
  rw [vacuumNpvOmRaw, resolveYears_C6, vacuumY1_C6, resolveRate_C6]
  rw [Int.toNat_one, List.replicate_one, npv_singleton]

theorem repYears_C6 : repYears bookC6.pressure = 1 := by
  have hp : pyInt (1 : ℚ) = 1 := by
    unfold pyInt
    rw [if_pos (by norm_num), Int.floor_one]
  simp [repYears, bookC6, hp]

theorem pressureAnnual_C6 :
    pressureAnnual clusterC6 bookC6.pressure (resolveEnergy clusterC6 bookC6) = 100 := by
  simp [pressureAnnual, clusterC6, bookC6]

theorem pressureSeries_C6 : pressureSeries clusterC6 bookC6 = [106] := by
  rw [pressureSeries, resolveYears_C6, Int.toNat_one, List.range'_one, List.map_singleton]
  rw [repYears_C6]
  rw [pressureAnnual_C6]
  norm_num [repCost, clusterC6, bookC6]

theorem pressureNpvOmRaw_C6 : pressureNpvOmRaw clusterC6 bookC6 = 100 := by
  rw [pressureNpvOmRaw, pressureSeries_C6, resolveRate_C6, npv_singleton]
  norm_num

/-- C6, counterexample: at a cluster whose resolved horizon is one year,
the returned (rounded) `npv_om` differs from the returned
`annual_om_year1` divided by `1 + discount_rate`, for both system types:
the vacuum case fails because of 2-decimal rounding, the pressure case
additionally because a replacement interval of one year puts the
replacement lump into year 1. -/
theorem c6_single_year_counterexample :
    resolveYears clusterC6 bookC6 = 1 ∧
      (estimate_vacuum clusterC6 bookC6).npv_om
        ≠ (estimate_vacuum clusterC6 bookC6).annual_om_year1
            / (1 + resolveRate clusterC6 bookC6) ∧
      (estimate_pressure clusterC6 bookC6).npv_om
        ≠ (estimate_pressure clusterC6 bookC6).annual_om_year1
            / (1 + resolveRate clusterC6 bookC6) := by
  refine ⟨resolveYears_C6, ?_, ?_⟩
  · have hnpv : (estimate_vacuum clusterC6 bookC6).npv_om = 1 / 100 := by
      show round2 (vacuumNpvOmRaw clusterC6 bookC6) = 1 / 100
      rw [vacuumNpvOmRaw_C6]
      have hr : rhe (100 * ((1 / 100) / (1 + 6 / 100) : ℚ)) = 1 := rhe_of_gt _ 0 (by norm_num) (by norm_num)
      rw [round2_eval _ 1 hr]
      norm_num
    have hann : (estimate_vacuum clusterC6 bookC6).annual_om_year1 = 1 / 100 := by
      show round2 (vacuumY1 clusterC6 bookC6.vacuum (resolveEnergy clusterC6 bookC6)) = 1 / 100
      rw [vacuumY1_C6]
      have hr : rhe (100 * (1 / 100 : ℚ)) = 1 := rhe_of_lt _ 1 (by norm_num) (by norm_num)
      rw [round2_eval _ 1 hr]
      norm_num
    rw [hnpv, hann, resolveRate_C6]
    norm_num
  · have hnpv : (estimate_pressure clusterC6 bookC6).npv_om = 100 := by
      show round2 (pressureNpvOmRaw clusterC6 bookC6) = 100
      rw [pressureNpvOmRaw_C6]
      have hr : rhe (100 * (100 : ℚ)) = 10000 := rhe_of_lt _ 10000 (by norm_num) (by norm_num)
      rw [round2_eval _ 10000 hr]
      norm_num
    have hann : (estimate_pressure clusterC6 bookC6).annual_om_year1 = 100 := by
      show round2 (pressureAnnual clusterC6 bookC6.pressure (resolveEnergy clusterC6 bookC6))
          = 100
      rw [pressureAnnual_C6]
      have hr : rhe (100 * (100 : ℚ)) = 10000 := rhe_of_lt _ 10000 (by norm_num) (by norm_num)
      rw [round2_eval _ 10000 hr]
      norm_num
    rw [hnpv, hann, resolveRate_C6]
    norm_num

/-! ### The HTTP surface: vendors.py -/

/-- Python `str.lower()`, modelled as a character-wise lowercase map over
the string's characters. -/
def strLower (s : String) : String := ⟨s.data.map Char.toLower⟩

/-- Python `a or b` for an optional string: `None` and `""` are falsy. -/
def orElseS (a : Option String) (b : String) : String :=
  match a with
  | none => b
  | some s => if s = "" then b else s

/-- Python string interpolation of an optional string: `None` prints as
"None". -/
def pyStr (a : Option String) : String :=
  match a with
  | none => "None"
  | some s => s

/-- The JSON body of the `cluster` field of POST /vendors/compare.  The
outer `Option` records whether the key appears in the body at all, the
inner one whether its value is `null`. -/
structure ClusterBody where
  num_lots : ℤ
  est_main_lf : ℚ
  est_laterals_lf : ℚ
  analysis_years : Option (Option ℤ) := none
  discount_rate : Option (Option ℚ) := none
  energy_rate_per_kwh : Option (Option ℚ) := none

/-- Pydantic validation of the `Cluster` request model of `vendors.py`
(`num_lots > 0`, lengths non-negative), followed by `model_dump()`: a
field default (30, 0.06, 0.14) is applied only when the key is absent
from the body, while an explicit `null` is kept as `None`. -/
def parseCluster (b : ClusterBody) : Option Cluster :=
  if 0 < b.num_lots ∧ 0 ≤ b.est_main_lf ∧ 0 ≤ b.est_laterals_lf then
    some { num_lots := b.num_lots
           est_main_lf := b.est_main_lf
           est_laterals_lf := b.est_laterals_lf
           analysis_years := b.analysis_years.getD (some 30)
           discount_rate := b.discount_rate.getD (some (6 / 100))
           energy_rate_per_kwh := b.energy_rate_per_kwh.getD (some (14 / 100)) }
  else none

/-- The validated `CompareReq` request model of `vendors.py`. -/
structure CompareReq where
  cluster : Cluster
  fmt : Option String := some "json"
  filename : Option String := none

/-- The response of the POST /vendors/compare handler: which branch of
the format dispatch was taken, with the comparison result it renders and,
where the code sets one, the resolved attachment filename. -/
inductive CompareResponse where
  | json (res : ComparisonResult)
  | markdown (res : ComparisonResult)
  | html (res : ComparisonResult) (filename : String)
  | csv (res : ComparisonResult) (filename : String)
  | error (msg : String)

/-- `vendors_compare(req)` of `vendors.py`; the source computes
`fmt = (req.fmt or "json").lower()` once and dispatches on it.  The cost
book used by `compare` is passed explicitly. -/
def vendors_compare (costs : CostBook) (req : CompareReq) : CompareResponse :=
  if strLower (orElseS req.fmt "json") = "json" then
    CompareResponse.json (compare costs req.cluster)
  else if strLower (orElseS req.fmt "json") = "markdown" then
    CompareResponse.markdown (compare costs req.cluster)
  else if strLower (orElseS req.fmt "json") = "html" then
    CompareResponse.html (compare costs req.cluster)
      (orElseS req.filename "vendor_compare.html")
  else if strLower (orElseS req.fmt "json") = "csv" then
    CompareResponse.csv (compare costs req.cluster)
      (orElseS req.filename "vendor_compare.csv")
  else
    CompareResponse.error
      ("Unknown format '" ++ pyStr req.fmt ++ "'. Use json|markdown|html|csv")

/-- The HTTP status FastAPI attaches to each branch: a plain dict and a
`Response` without an explicit status code are both served as 200. -/
def statusOf : CompareResponse → ℕ
  | CompareResponse.json _ => 200
  | CompareResponse.markdown _ => 200
  | CompareResponse.html _ _ => 200
  | CompareResponse.csv _ _ => 200
  | CompareResponse.error _ => 200

/-- Which dispatch branch a response came from. -/
def selectedBranch : CompareResponse → String
  | CompareResponse.json _ => "json"
  | CompareResponse.markdown _ => "markdown"
  | CompareResponse.html _ _ => "html"
  | CompareResponse.csv _ _ => "csv"
  | CompareResponse.error _ => "error"

/-- The format values the dispatch accepts. -/
def supportedFormats : List String := ["json", "markdown", "html", "csv"]

/-- The fmt value claim C10 says the dispatch depends on: the lowercased
fmt string, with an absent (`None`) fmt mapped to "json" first. -/
def claimedFmt (req : CompareReq) : String :=
  strLower (match req.fmt with | none => "json" | some s => s)

/-- The branch the dispatch takes as a function of the computed format
string alone. -/
def branchOf (s : String) : String :=
  if s = "json" then "json"
  else if s = "markdown" then "markdown"
  else if s = "html" then "html"
  else if s = "csv" then "csv"
  else "error"

theorem selectedBranch_vendors_compare (costs : CostBook) (req : CompareReq) :
    selectedBranch (vendors_compare costs req)
      = branchOf (strLower (orElseS req.fmt "json")) := by
  unfold vendors_compare branchOf
  split_ifs <;> rfl

theorem strLower_eq_empty {s : String} (h : strLower s = "") : s = "" := by
  have h2 : s.data.map Char.toLower = ([] : List Char) := congrArg String.data h
  have h3 : s.data = [] := List.map_eq_nil_iff.mp h2
  cases s with
  | mk d =>
    have h4 : d = [] := h3
    rw [h4]

theorem actualFmt_eq (req : CompareReq) :
    strLower (orElseS req.fmt "json")
      = if claimedFmt req = "" then "json" else claimedFmt req := by
  cases hf : req.fmt with
  | none =>
    simp only [claimedFmt, orElseS, hf]
    rw [if_neg (by decide)]
  | some s =>
    by_cases hse : s = ""
    · subst hse
      simp only [claimedFmt, orElseS, hf]
      decide
    · simp only [claimedFmt, orElseS, hf]
      rw [if_neg hse]
      rw [if_neg (fun hc => hse (strLower_eq_empty hc))]

/-- C10: the branch selected by POST /vendors/compare depends only on the
lowercased fmt string with `None` mapped to "json" first (so the field is
case-insensitive), and an absent or null fmt selects the "json" branch. -/
theorem c10_fmt_dispatch (costs : CostBook) (r1 r2 : CompareReq)
    (h : claimedFmt r1 = claimedFmt r2) :
    selectedBranch (vendors_compare costs r1) = selectedBranch (vendors_compare costs r2) ∧
      (r1.fmt = none → selectedBranch (vendors_compare costs r1) = "json") := by
  constructor
  · rw [selectedBranch_vendors_compare, selectedBranch_vendors_compare,
        actualFmt_eq, actualFmt_eq, h]
  · intro hn
    rw [selectedBranch_vendors_compare, actualFmt_eq]
    have hc : claimedFmt r1 = strLower "json" := by simp only [claimedFmt, hn]
    rw [hc]
    decide

/-! ### Unknown output format (claim C7) -/

/-- C7, amended: for every request whose fmt is a nonempty string whose
lowercasing is not among json, markdown, html, csv, the handler renders
nothing and returns the structured error object naming the submitted fmt
value and listing the accepted set, under a success HTTP status.  (An
empty-string fmt is excluded: Python's `req.fmt or "json"` treats it as
falsy and serves the json branch.) -/
theorem c7_unknown_format_error (costs : CostBook) (req : CompareReq) (s : String)
    (hs : req.fmt = some s) (hne : s ≠ "") (hu : strLower s ∉ supportedFormats) :
    vendors_compare costs req
        = CompareResponse.error ("Unknown format '" ++ s ++ "'. Use json|markdown|html|csv") ∧
      statusOf (vendors_compare costs req) = 200 := by
  simp only [supportedFormats, List.mem_cons, List.mem_singleton, not_or] at hu
  obtain ⟨h1, h2, h3, h4, -⟩ := hu
  have hor : orElseS req.fmt "json" = s := by
    rw [hs]
    simp [orElseS, hne]
  unfold vendors_compare
  rw [hor, hs]
  rw [if_neg h1, if_neg h2, if_neg h3, if_neg h4]
  exact ⟨rfl, rfl⟩

/-- A minimal valid cluster for the HTTP-layer instances. -/
def clusterC7 : Cluster := { num_lots := 1, est_main_lf := 0, est_laterals_lf := 0 }

/-- A request carrying an explicit empty-string fmt. -/
def reqC7empty : CompareReq := { cluster := clusterC7, fmt := some "" }

/-- C7, counterexample: the empty string is not one of the supported
formats, yet the handler serves the json branch instead of the error
object for it. -/
theorem c7_empty_format_counterexample :
    ("" : String) ∉ supportedFormats ∧
      vendors_compare bookC1 reqC7empty = CompareResponse.json (compare bookC1 clusterC7) := by
  constructor
  · decide
  · rfl

/-! ### Request-model defaults over the HTTP boundary (claim C9) -/

/-- C9, amended: every cluster field among `analysis_years`,
`discount_rate` and `energy_rate_per_kwh` that is omitted from the
request body is filled with its default (30, 0.06, 0.14 respectively) by
the request model, so the cost model sees that field as present and
resolves it to exactly that constant, whatever the cost book's finance
section says.  (A field sent as an explicit `null` is not filled and does
reach the cost model as absent.) -/
theorem c9_omitted_fields_defaults (b : ClusterBody) (c : Cluster)
    (hc : parseCluster b = some c) :
    (b.analysis_years = none →
      c.analysis_years = some 30 ∧ ∀ costs : CostBook, resolveYears c costs = 30) ∧
      (b.discount_rate = none →
        c.discount_rate = some (6 / 100) ∧
          ∀ costs : CostBook, resolveRate c costs = 6 / 100) ∧
      (b.energy_rate_per_kwh = none →
        c.energy_rate_per_kwh = some (14 / 100) ∧
          ∀ costs : CostBook, resolveEnergy c costs = 14 / 100) := by
  unfold parseCluster at hc
  split_ifs at hc with hv
  · injection hc with hcc
    subst hcc
    refine ⟨fun h1 => ⟨?_, fun costs => ?_⟩, fun h2 => ⟨?_, fun costs => ?_⟩,
      fun h3 => ⟨?_, fun costs => ?_⟩⟩
    · show b.analysis_years.getD (some 30) = some 30
      rw [h1]
      rfl
    · show orElseZ (b.analysis_years.getD (some 30))
          (finGetZ costs.finance Finance.analysis_years 30) = 30
      rw [h1]
      rfl
    · show b.discount_rate.getD (some (6 / 100)) = some (6 / 100)
      rw [h2]
      rfl
    · show orElseQ (b.discount_rate.getD (some (6 / 100)))
          (finGetQ costs.finance Finance.discount_rate (6 / 100)) = 6 / 100
      rw [h2]
      show (if (6 / 100 : ℚ) = 0
          then finGetQ costs.finance Finance.discount_rate (6 / 100)
          else 6 / 100) = 6 / 100
      rw [if_neg (by norm_num)]
    · show b.energy_rate_per_kwh.getD (some (14 / 100)) = some (14 / 100)
      rw [h3]
      rfl
    · show orElseQ (b.energy_rate_per_kwh.getD (some (14 / 100)))
          (finGetQ costs.finance Finance.energy_rate_per_kwh (14 / 100)) = 14 / 100
      rw [h3]
      show (if (14 / 100 : ℚ) = 0
          then finGetQ costs.finance Finance.energy_rate_per_kwh (14 / 100)
          else 14 / 100) = 14 / 100
      rw [if_neg (by norm_num)]

/-- A request body that sends `discount_rate` as an explicit `null` and
a one-year horizon. -/
def bodyC9 : ClusterBody :=
  { num_lots := 1, est_main_lf := 0, est_laterals_lf := 0,
    analysis_years := some (some 1), discount_rate := some none,
    energy_rate_per_kwh := none }

/-- The cluster the request model produces for `bodyC9`. -/
def clusterC9 : Cluster :=
  { num_lots := 1, est_main_lf := 0, est_laterals_lf := 0,
    analysis_years := some 1, discount_rate := none,
    energy_rate_per_kwh := some (14 / 100) }

/-- A vacuum section with a 106-per-connection O&M cost, giving exact
round numbers under the default and the alternative discount rate. -/
def vacuumC9 : VacuumCosts :=
  { main_per_lf_shallow := 0, lateral_per_lf := 0, station_per_400_lots_ls := 0,
    valve_pit_each := 0, annual_om_per_conn := 106, energy_kwh_per_conn_day := 0 }

/-- A cost book without a finance section. -/
def bookC9A : CostBook := { vacuum := vacuumC9, pressure := zeroPressure, finance := none }

/-- A finance section overriding the discount rate to 1. -/
def finC9 : Finance := { discount_rate := some 1 }

/-- The same cost book as `bookC9A` except for the finance section. -/
def bookC9B : CostBook := { vacuum := vacuumC9, pressure := zeroPressure, finance := some finC9 }

theorem resolveYears_C9 (costs : CostBook) : resolveYears clusterC9 costs = 1 := by
  simp [resolveYears, orElseZ, clusterC9]

theorem vacuumY1_C9 (costs : CostBook) (hv : costs.vacuum = vacuumC9) :
    vacuumY1 clusterC9 costs.vacuum (resolveEnergy clusterC9 costs) = 106 := by
  rw [hv]
  simp [vacuumY1, clusterC9, vacuumC9]

/-- C9, counterexample: a request body carrying `discount_rate: null`
passes validation, reaches the cost model with the field absent, and two
cost books that differ only in their finance section then produce
different HTTP results, so `cost_book.finance` can influence the result
of an HTTP request. -/
theorem c9_explicit_null_counterexample :
    parseCluster bodyC9 = some clusterC9 ∧
      clusterC9.discount_rate = none ∧
      (compare bookC9A clusterC9).vacuum.npv_om ≠ (compare bookC9B clusterC9).vacuum.npv_om := by
  refine ⟨?_, rfl, ?_⟩
  · unfold parseCluster
    rw [if_pos (by norm_num [bodyC9])]
    rfl
  · have hrateA : resolveRate clusterC9 bookC9A = 6 / 100 := by
      simp [resolveRate, orElseQ, finGetQ, clusterC9, bookC9A]
    have hrateB : resolveRate clusterC9 bookC9B = 1 := by
      simp [resolveRate, orElseQ, finGetQ, clusterC9, bookC9B, finC9]
    have hA : (compare bookC9A clusterC9).vacuum.npv_om = 100 := by
      show round2 (vacuumNpvOmRaw clusterC9 bookC9A) = 100
      rw [vacuumNpvOmRaw, resolveYears_C9, vacuumY1_C9 bookC9A rfl, hrateA]
      rw [Int.toNat_one, List.replicate_one, npv_singleton]
      have he : (106 : ℚ) / (1 + 6 / 100) = 100 := by norm_num
      rw [he]
      rw [round2_eval _ 10000 (rhe_of_lt _ 10000 (by norm_num) (by norm_num))]
      norm_num
    have hB : (compare bookC9B clusterC9).vacuum.npv_om = 53 := by
      show round2 (vacuumNpvOmRaw clusterC9 bookC9B) = 53
      rw [vacuumNpvOmRaw, resolveYears_C9, vacuumY1_C9 bookC9B rfl, hrateB]
      rw [Int.toNat_one, List.replicate_one, npv_singleton]
      have he : (106 : ℚ) / (1 + 1) = 53 := by norm_num
      rw [he]
      rw [round2_eval _ 5300 (rhe_of_lt _ 5300 (by norm_num) (by norm_num))]
      norm_num
    rw [hA, hB]
    norm_num

/-! ### Concrete instances exercising the parameterised theorems -/

/-- A single-lot cluster with a 10-year horizon. -/
def clusterC2 : Cluster :=
  { num_lots := 1, est_main_lf := 0, est_laterals_lf := 0,
    analysis_years := some 10, discount_rate := some (6 / 100),
    energy_rate_per_kwh := some (14 / 100) }

/-- A cost book with a 5-year pump replacement interval. -/
def bookC2 : CostBook :=
  { vacuum := zeroVacuum
    pressure := { main_per_lf_shallow := 0, lateral_per_lf := 0,
                  grinder_pump_package_each := 0, booster_ls := 0,
                  annual_om_per_conn := 100, energy_kwh_per_conn_day := 0,
                  pump_replace_years := 5, pump_replace_cost_each := 1000 }
    finance := none }

theorem c2_witness :
    (pressureSeries clusterC2 bookC2).get? 4
      = some (pressureAnnual clusterC2 bookC2.pressure (resolveEnergy clusterC2 bookC2)
          + repCost clusterC2 bookC2.pressure) := by
  have hny : (resolveYears clusterC2 bookC2).toNat = 10 := by
    have hr : resolveYears clusterC2 bookC2 = 10 := by
      simp [resolveYears, orElseZ, clusterC2]
    rw [hr]
    rfl
  have h := (c2_pressure_series_schedule clusterC2 bookC2 5 (by norm_num)
    (by rw [hny]; norm_num)).1
  have hrep : repYears bookC2.pressure = 5 := by
    have hp : pyInt (5 : ℚ) = 5 := by
      unfold pyInt
      rw [if_pos (by norm_num)]
      norm_num
    simp [repYears, bookC2, hp]
  rw [hrep] at h
  rw [if_pos (by norm_num)] at h
  have he : (5 : ℕ) - 1 = 4 := by norm_num
  rw [he] at h
  exact h

/-- A cluster producing an exact tie between the two systems. -/
def clusterC4 : Cluster :=
  { num_lots := 1, est_main_lf := 0, est_laterals_lf := 0,
    analysis_years := some 1, discount_rate := some 1,
    energy_rate_per_kwh := some (14 / 100) }

theorem c4_witness : (compare bookC1 clusterC4).preferred = "Pressure" := by
  have hy : resolveYears clusterC4 bookC1 = 1 := by
    simp [resolveYears, orElseZ, clusterC4]
  have hv1 : vacuumCapex clusterC4 bookC1.vacuum = 0 := by
    simp [vacuumCapex, clusterC4, bookC1, zeroVacuum]
  have hv2 : vacuumNpvOmRaw clusterC4 bookC1 = 0 := by
    rw [vacuumNpvOmRaw, hy]
    have hy1 : vacuumY1 clusterC4 bookC1.vacuum (resolveEnergy clusterC4 bookC1) = 0 := by
      simp [vacuumY1, clusterC4, bookC1, zeroVacuum]
    rw [hy1, Int.toNat_one, List.replicate_one, npv_singleton, zero_div]
  have hp1 : pressureCapex clusterC4 bookC1.pressure = 0 := by
    simp [pressureCapex, clusterC4, bookC1, zeroPressure]
  have hp2 : pressureNpvOmRaw clusterC4 bookC1 = 0 := by
    rw [pressureNpvOmRaw, pressureSeries, hy]
    rw [Int.toNat_one, List.range'_one, List.map_singleton]
    have hel : pressureAnnual clusterC4 bookC1.pressure (resolveEnergy clusterC4 bookC1)
        + (if ((1 : ℕ) : ℤ) % repYears bookC1.pressure = 0
          then repCost clusterC4 bookC1.pressure else 0) = 0 := by
      have ha : pressureAnnual clusterC4 bookC1.pressure (resolveEnergy clusterC4 bookC1) = 0 := by
        simp [pressureAnnual, clusterC4, bookC1, zeroPressure]
      have hrc : repCost clusterC4 bookC1.pressure = 0 := by
        simp [repCost, clusterC4, bookC1, zeroPressure]
      rw [ha, hrc, ite_self, zero_add]
    rw [hel, npv_singleton, zero_div]
  have heq : (estimate_vacuum clusterC4 bookC1).npv_total
      = (estimate_pressure clusterC4 bookC1).npv_total := by
    show round2 (vacuumCapex clusterC4 bookC1.vacuum + vacuumNpvOmRaw clusterC4 bookC1)
        = round2 (pressureCapex clusterC4 bookC1.pressure + pressureNpvOmRaw clusterC4 bookC1)
    rw [hv1, hv2, hp1, hp2]
  exact (c4_compare_preference bookC1 clusterC4).2.2.1 heq

/-- A cost book with every unit cost equal to 1. -/
def bookC5 : CostBook :=
  { vacuum := { main_per_lf_shallow := 1, lateral_per_lf := 1, station_per_400_lots_ls := 1,
                valve_pit_each := 1, annual_om_per_conn := 1, energy_kwh_per_conn_day := 1 }
    pressure := { main_per_lf_shallow := 1, lateral_per_lf := 1,
                  grinder_pump_package_each := 1, booster_ls := 1,
                  annual_om_per_conn := 1, energy_kwh_per_conn_day := 1,
                  pump_replace_years := 1, pump_replace_cost_each := 1 }
    finance := none }

/-- A minimal base cluster for the monotonicity instance. -/
def clusterC5 : Cluster := { num_lots := 1, est_main_lf := 0, est_laterals_lf := 0 }

theorem c5_witness :
    (estimate_vacuum { clusterC5 with num_lots := 1 } bookC5).capex
        ≤ (estimate_vacuum { clusterC5 with num_lots := 3 } bookC5).capex ∧
      (estimate_pressure { clusterC5 with num_lots := 1 } bookC5).capex
        ≤ (estimate_pressure { clusterC5 with num_lots := 3 } bookC5).capex :=
  c5_capex_monotone bookC5 (by norm_num [NonnegBook, bookC5]) clusterC5 1 3 (by norm_num)

/-- A cluster with a one-year horizon and a 50 percent discount rate. -/
def clusterC6w : Cluster :=
  { num_lots := 1, est_main_lf := 0, est_laterals_lf := 0,
    analysis_years := some 1, discount_rate := some (1 / 2),
    energy_rate_per_kwh := some (14 / 100) }

/-- A cost book with O&M cost 3 per connection for both systems and a
2-year pump replacement interval. -/
def bookC6w : CostBook :=
  { vacuum := { main_per_lf_shallow := 0, lateral_per_lf := 0, station_per_400_lots_ls := 0,
                valve_pit_each := 0, annual_om_per_conn := 3, energy_kwh_per_conn_day := 0 }
    pressure := { main_per_lf_shallow := 0, lateral_per_lf := 0,
                  grinder_pump_package_each := 0, booster_ls := 0,
                  annual_om_per_conn := 3, energy_kwh_per_conn_day := 0,
                  pump_replace_years := 2, pump_replace_cost_each := 7 }
    finance := none }

theorem c6_witness :
    vacuumNpvOmRaw clusterC6w bookC6w = 2 ∧ pressureNpvOmRaw clusterC6w bookC6w = 2 := by
  have hy : resolveYears clusterC6w bookC6w = 1 := by
    simp [resolveYears, orElseZ, clusterC6w]
  have h := c6_single_year_npv clusterC6w bookC6w hy
  have hrate : resolveRate clusterC6w bookC6w = 1 / 2 := by
    simp only [resolveRate, clusterC6w, orElseQ]
    rw [if_neg (by norm_num)]
  constructor
  · rw [h.1]
    have h1 : vacuumY1 clusterC6w bookC6w.vacuum (resolveEnergy clusterC6w bookC6w) = 3 := by
      simp [vacuumY1, clusterC6w, bookC6w]
    rw [h1, hrate]
    norm_num
  · have hrep : repYears bookC6w.pressure = 2 := by
      have hp : pyInt (2 : ℚ) = 2 := by
        unfold pyInt
        rw [if_pos (by norm_num)]
        norm_num
      simp [repYears, bookC6w, hp]
    rw [h.2.1 (le_of_eq hrep.symm)]
    have h1 : pressureAnnual clusterC6w bookC6w.pressure (resolveEnergy clusterC6w bookC6w)
        = 3 := by
      simp [pressureAnnual, clusterC6w, bookC6w]
    rw [h1, hrate]
    norm_num

/-- A request asking for the unsupported format "yaml". -/
def reqC7yaml : CompareReq := { cluster := clusterC7, fmt := some "yaml", filename := none }

theorem c7_witness :
    vendors_compare bookC1 reqC7yaml
        = CompareResponse.error
            ("Unknown format '" ++ "yaml" ++ "'. Use json|markdown|html|csv") ∧
      statusOf (vendors_compare bookC1 reqC7yaml) = 200 :=
  c7_unknown_format_error bookC1 reqC7yaml "yaml" rfl (by decide) (by decide)

/-- A request body omitting all three financial fields. -/
def bodyC9w : ClusterBody := { num_lots := 1, est_main_lf := 0, est_laterals_lf := 0 }

/-- The cluster the request model produces for `bodyC9w`. -/
def clusterC9w : Cluster :=
  { num_lots := 1, est_main_lf := 0, est_laterals_lf := 0,
    analysis_years := some 30, discount_rate := some (6 / 100),
    energy_rate_per_kwh := some (14 / 100) }

theorem c9_witness :
    clusterC9w.analysis_years = some 30 ∧ clusterC9w.discount_rate = some (6 / 100) ∧
      clusterC9w.energy_rate_per_kwh = some (14 / 100) ∧
      resolveYears clusterC9w bookC1 = 30 ∧ resolveRate clusterC9w bookC1 = 6 / 100 ∧
      resolveEnergy clusterC9w bookC1 = 14 / 100 := by
  have hparse : parseCluster bodyC9w = some clusterC9w := by
    unfold parseCluster
    rw [if_pos (by norm_num [bodyC9w])]
    rfl
  have h := c9_omitted_fields_defaults bodyC9w clusterC9w hparse
  exact ⟨(h.1 rfl).1, (h.2.1 rfl).1, (h.2.2 rfl).1, (h.1 rfl).2 bookC1,
    (h.2.1 rfl).2 bookC1, (h.2.2 rfl).2 bookC1⟩

/-- A request with no fmt value. -/
def reqC10none : CompareReq := { cluster := clusterC7, fmt := none }

/-- The same request with an upper-case fmt value. -/
def reqC10upper : CompareReq := { cluster := clusterC7, fmt := some "JSON" }

theorem c10_witness :
    selectedBranch (vendors_compare bookC1 reqC10none)
        = selectedBranch (vendors_compare bookC1 reqC10upper) ∧
      selectedBranch (vendors_compare bookC1 reqC10none) = "json" := by
  have h := c10_fmt_dispatch bookC1 reqC10none reqC10upper (by decide)
  exact ⟨h.1, h.2 rfl⟩

end Augustus
